import Mathlib

/-!
Shallow embedding of the appointment-submission backend (`src/main.py`).

The program is a FastAPI application with four routes.  The core logic embedded
here is the POST `/appointments` handler `create_appointment`, its two optional
channel adapters `_append_to_google_sheets` and `_send_whatsapp_notification`,
and the GET `/test` diagnostics handler `test_database`.

External effects (environment variables, the Google Sheets service, the Twilio
service, the database module) are modelled explicitly:

* `Env` holds the optional environment-variable values read via `os.getenv`.
* `SheetsWorld` / `TwilioWorld` describe the behaviour of the external services
  at each point where the Python code performs a remote call that may raise.
* The persistence call `database.create_document` (its module is not part of
  the source tree) is passed in as an `Except String String` value: the
  identifier it returns, or the message of the exception it raises.
* Adapters return their success token together with a log of the delivery side
  effects actually performed (rows appended, messages sent), and the handler
  additionally reports how many times each adapter function was invoked, so
  that call-count and side-effect claims are statable.
-/

/-- Python truthiness of an `os.getenv` result: `None` and `""` are falsy,
any other string is truthy (`if not x`, `bool(x)`, `all([...])`). -/
def pyTruthy : Option String → Bool
  | none => false
  | some s => !s.isEmpty

/-- Python `x or d` applied to an optional string field `x`:
yields `d` when `x` is `None` or the empty string, otherwise the string. -/
def pyOr (x : Option String) (d : String) : String :=
  match x with
  | none => d
  | some s => if s.isEmpty then d else s

/-- The `Appointment` request model (`schemas.Appointment`): four required
string fields, two optional ones (absent encoded as `none`). -/
structure Appointment where
  name : String
  email : String
  phone : String
  department : String
  date : Option String
  notes : Option String
deriving Repr, DecidableEq

/-- The environment variables the program reads, as `os.getenv` sees them:
`none` when unset, `some s` when set (possibly to the empty string). -/
structure Env where
  google_service_account_json : Option String
  google_sheets_spreadsheet : Option String
  google_sheets_worksheet : Option String
  twilio_account_sid : Option String
  twilio_auth_token : Option String
  twilio_whatsapp_from : Option String
  whatsapp_to : Option String
  database_url : Option String
  database_name : Option String
deriving Repr, DecidableEq

/-- Behaviour of the Google Sheets service for one request.
`pipelineOk` is whether the chain `json.loads` / `Credentials.from_service_account_info` /
`gspread.authorize` / `gc.open` completes without raising; `existingWorksheets` are the
titles for which `sh.worksheet(title)` succeeds (returning a worksheet of that title);
`sheet1` is the title of `sh.sheet1`, or `none` if accessing it raises;
`appendOk` is whether `ws.append_row` succeeds. -/
structure SheetsWorld where
  pipelineOk : Bool
  existingWorksheets : List String
  sheet1 : Option String
  appendOk : Bool
deriving Repr, DecidableEq

/-- Behaviour of the Twilio service for one request: `sendSid` is the `sid` of the
message returned by `client.messages.create`, or `none` if that call raises. -/
structure TwilioWorld where
  sendSid : Option String
deriving Repr, DecidableEq

/-- Combined external-service behaviour for one request. -/
structure World where
  sheets : SheetsWorld
  twilio : TwilioWorld
deriving Repr, DecidableEq

/-- The worksheet name used by the sheets adapter:
`os.getenv("GOOGLE_SHEETS_WORKSHEET", "Sheet1")` — the default applies only
when the variable is unset, not when it is set to the empty string. -/
def worksheet_name (env : Env) : String :=
  match env.google_sheets_worksheet with
  | none => "Sheet1"
  | some s => s

/-- The sheets adapter's configuration gate (`main.py` lines 83–84): the
channel is configured iff the service-account blob and the spreadsheet name
are both present and non-empty. -/
def sheetsConfigured (env : Env) : Bool :=
  pyTruthy env.google_service_account_json && pyTruthy env.google_sheets_spreadsheet

/-- The messaging adapter's configuration gate (`main.py` line 125,
`all([account_sid, auth_token, from_whatsapp, to_whatsapp])`): all four values
present and non-empty. -/
def twilioConfigured (env : Env) : Bool :=
  pyTruthy env.twilio_account_sid && pyTruthy env.twilio_auth_token &&
    pyTruthy env.twilio_whatsapp_from && pyTruthy env.whatsapp_to

/-- Worksheet resolution (`main.py` lines 97–100): try `sh.worksheet(name)`;
on any exception fall back to `sh.sheet1` (which may itself raise, giving `none`,
an exception the outer handler then catches). -/
def resolveWorksheet (w : SheetsWorld) (name : String) : Option String :=
  if name ∈ w.existingWorksheets then some name else w.sheet1

/-- `_append_to_google_sheets` (`main.py` lines 75–113).  Returns the token the
Python function returns (`ws.title` on success, `None` otherwise) paired with
the list of rows actually appended to the sheet.  The `try` block's failures —
`pipelineOk = false`, worksheet resolution raising (`resolveWorksheet _ = none`),
`appendOk = false` — are all caught and converted to a `none` token. -/
def append_to_google_sheets (env : Env) (w : SheetsWorld) (a : Appointment) :
    Option String × List (List String) :=
  if !pyTruthy env.google_service_account_json || !pyTruthy env.google_sheets_spreadsheet then
    (none, [])
  else if !w.pipelineOk then
    (none, [])
  else
    match resolveWorksheet w (worksheet_name env) with
    | none => (none, [])
    | some title =>
      if w.appendOk then
        (some title,
          [[a.name, a.email, a.phone, a.department, pyOr a.date "", pyOr a.notes ""]])
      else
        (none, [])

/-- The WhatsApp message body (`main.py` lines 131–139): a fixed template where
an absent (or empty) optional field is rendered as the placeholder `"-"`. -/
def whatsapp_body (a : Appointment) : String :=
  "New Appointment Request\n" ++
    "Name: " ++ a.name ++ "\n" ++
    "Email: " ++ a.email ++ "\n" ++
    "Phone: " ++ a.phone ++ "\n" ++
    "Department: " ++ a.department ++ "\n" ++
    "Date: " ++ pyOr a.date "-" ++ "\n" ++
    "Notes: " ++ pyOr a.notes "-"

/-- `_send_whatsapp_notification` (`main.py` lines 116–144).  Returns the token
(`msg.sid` on success, `None` otherwise) paired with the list of message bodies
actually sent.  A raising `client.messages.create` (`sendSid = none`) is caught
and converted to a `none` token. -/
def send_whatsapp_notification (env : Env) (w : TwilioWorld) (a : Appointment) :
    Option String × List String :=
  if !(pyTruthy env.twilio_account_sid && pyTruthy env.twilio_auth_token &&
        pyTruthy env.twilio_whatsapp_from && pyTruthy env.whatsapp_to) then
    (none, [])
  else
    match w.sendSid with
    | none => (none, [])
    | some sid => (some sid, [whatsapp_body a])

/-- The JSON body returned by POST `/appointments` on success
(`main.py` lines 158–163). -/
structure AppointmentResponse where
  ok : Bool
  id : String
  google_sheets : Bool
  whatsapp : Bool
deriving Repr, DecidableEq

/-- Observable side effects of one run of the handler: how many times each
adapter function was invoked by the handler, and the delivery effects each
adapter actually performed. -/
structure Effects where
  sheets_adapter_calls : Nat
  whatsapp_adapter_calls : Nat
  sheets_rows : List (List String)
  whatsapp_messages : List String
deriving Repr, DecidableEq

/-- `create_appointment`, the POST `/appointments` handler (`main.py` lines
147–163).  `persist` is the outcome of `create_document("appointment", appointment)`:
the inserted identifier, or the message of the exception it raised.  On a
persistence failure the handler raises `HTTPException(500, "Database error: " + str(e))`
before either adapter line is reached; on success it calls both adapters
unconditionally and builds the response with `bool(token)` flags. -/
def create_appointment (env : Env) (w : World) (a : Appointment)
    (persist : Except String String) :
    Except (Nat × String) AppointmentResponse × Effects :=
  match persist with
  | .error e => (.error (500, "Database error: " ++ e), ⟨0, 0, [], []⟩)
  | .ok inserted_id =>
    let s := append_to_google_sheets env w.sheets a
    let t := send_whatsapp_notification env w.twilio a
    (.ok { ok := true, id := inserted_id,
           google_sheets := pyTruthy s.1, whatsapp := pyTruthy t.1 },
     ⟨1, 1, s.2, t.2⟩)

/-- Modelled from the spec: the Persistence Gateway (`database.create_document`,
whose module is not part of the source tree) stores one document per appointment
containing the six request fields, optional fields stored as the empty string
when absent. -/
def stored_document (a : Appointment) : List (String × String) :=
  [("name", a.name), ("email", a.email), ("phone", a.phone),
   ("department", a.department), ("date", pyOr a.date ""), ("notes", pyOr a.notes "")]

/-- The database handle as seen by the `/test` endpoint: `name` is `db.name`
when the handle has a `name` attribute; `collections` is the result of
`db.list_collection_names()`, or the message of the exception it raises. -/
structure DbHandle where
  name : Option String
  collections : Except String (List String)
deriving Repr

/-- Outcome of `from database import db` inside the `/test` handler:
an `ImportError`, some other exception, or success with `db` possibly `None`. -/
inductive DbImport where
  | importError : DbImport
  | otherError : String → DbImport
  | ok : Option DbHandle → DbImport
deriving Repr

/-- The JSON object returned by GET `/test`.  In the source `database_url` and
`database_name` start as `None` but are unconditionally overwritten with
presence strings before returning, so they are plain strings here. -/
structure TestResponse where
  backend : String
  database : String
  database_url : String
  database_name : String
  connection_status : String
  collections : List String
deriving Repr, DecidableEq

/-- `test_database`, the GET `/test` handler (`main.py` lines 29–71).  A pure
function of the import outcome and the environment: every failure path is
caught and rendered as a status string (error text truncated to 50 characters),
and the final `database_url` / `database_name` fields report only the presence
of the corresponding environment variables. -/
def test_database (imp : DbImport) (env : Env) : TestResponse :=
  let base : TestResponse :=
    { backend := "✅ Running", database := "❌ Not Available",
      database_url := "", database_name := "",
      connection_status := "Not Connected", collections := [] }
  let mid : TestResponse :=
    match imp with
    | .importError =>
      { base with database := "❌ Database module not found (run enable-database first)" }
    | .otherError msg =>
      { base with database := "❌ Error: " ++ msg.take 50 }
    | .ok none =>
      { base with database := "⚠️  Available but not initialized" }
    | .ok (some db) =>
      let b1 : TestResponse :=
        { base with
            database := "✅ Available",
            database_url := "✅ Configured",
            database_name :=
              (match db.name with
               | some n => n
               | none => "✅ Connected"),
            connection_status := "Connected" }
      match db.collections with
      | .ok cols =>
        { b1 with collections := cols.take 10, database := "✅ Connected & Working" }
      | .error e =>
        { b1 with database := "⚠️  Connected but Error: " ++ e.take 50 }
  { mid with
      database_url := if pyTruthy env.database_url then "✅ Set" else "❌ Not Set",
      database_name := if pyTruthy env.database_name then "✅ Set" else "❌ Not Set" }

/-! ### Derived forms and helper lemmas -/

/-- The response the handler builds after a successful insert
(`main.py` lines 158–163, with `bool(token)` as `pyTruthy`). -/
def response_of (env : Env) (w : World) (a : Appointment) (id : String) : AppointmentResponse :=
  { ok := true, id := id,
    google_sheets := pyTruthy (append_to_google_sheets env w.sheets a).1,
    whatsapp := pyTruthy (send_whatsapp_notification env w.twilio a).1 }

theorem create_appointment_ok_eq (env : Env) (w : World) (a : Appointment) (id : String) :
    create_appointment env w a (Except.ok id) =
      (Except.ok (response_of env w a id),
       ⟨1, 1, (append_to_google_sheets env w.sheets a).2,
        (send_whatsapp_notification env w.twilio a).2⟩) := rfl

theorem sheets_gate_closed (env : Env) (w : SheetsWorld) (a : Appointment)
    (h : sheetsConfigured env = false) :
    append_to_google_sheets env w a = (none, []) := by
  have h2 : (!pyTruthy env.google_service_account_json ||
      !pyTruthy env.google_sheets_spreadsheet) = true := by
    cases hj : pyTruthy env.google_service_account_json <;>
      cases hs : pyTruthy env.google_sheets_spreadsheet <;>
        simp_all [sheetsConfigured]
  simp [append_to_google_sheets, h2]

theorem twilio_gate_closed (env : Env) (w : TwilioWorld) (a : Appointment)
    (h : twilioConfigured env = false) :
    send_whatsapp_notification env w a = (none, []) := by
  have h2 : (pyTruthy env.twilio_account_sid && pyTruthy env.twilio_auth_token &&
      pyTruthy env.twilio_whatsapp_from && pyTruthy env.whatsapp_to) = false := h
  simp [send_whatsapp_notification, h2]

theorem sheets_result_cases (env : Env) (w : SheetsWorld) (a : Appointment) :
    append_to_google_sheets env w a = (none, []) ∨
      ∃ t, append_to_google_sheets env w a =
        (some t, [[a.name, a.email, a.phone, a.department, pyOr a.date "", pyOr a.notes ""]]) := by
  unfold append_to_google_sheets
  split
  · exact Or.inl rfl
  · split
    · exact Or.inl rfl
    · split
      · exact Or.inl rfl
      · split
        · exact Or.inr ⟨_, rfl⟩
        · exact Or.inl rfl

theorem whatsapp_result_cases (env : Env) (w : TwilioWorld) (a : Appointment) :
    send_whatsapp_notification env w a = (none, []) ∨
      ∃ sid, send_whatsapp_notification env w a = (some sid, [whatsapp_body a]) := by
  unfold send_whatsapp_notification
  split
  · exact Or.inl rfl
  · split
    · exact Or.inl rfl
    · exact Or.inr ⟨_, rfl⟩

theorem pyTruthy_iff (o : Option String) :
    pyTruthy o = true ↔ ∃ s, o = some s ∧ s ≠ "" := by
  cases o with
  | none => simp [pyTruthy]
  | some s =>
    constructor
    · intro h
      refine ⟨s, rfl, fun hs => ?_⟩
      rw [hs] at h
      exact absurd h (by decide)
    · rintro ⟨s2, hs2, hne⟩
      rw [Option.some.injEq] at hs2
      subst hs2
      have hemp : s.isEmpty = false := by
        cases he : s.isEmpty
        · rfl
        · exact absurd ((String.isEmpty_iff s).mp he) hne
      simp [pyTruthy, hemp]

theorem string_take_length_le (s : String) (n : Nat) : (s.take n).length ≤ n := by
  rw [String.take_eq]
  exact List.length_take_le n s.1

/-! ### Concrete fixtures used by witnesses and counterexamples -/

/-- An environment with every variable unset. -/
def envNone : Env := ⟨none, none, none, none, none, none, none, none, none⟩

/-- A service world in which every external call would succeed. -/
def wTrivial : World := ⟨⟨true, [], none, true⟩, ⟨none⟩⟩

/-- The spec's concrete scenario request: date and notes omitted. -/
def apptA : Appointment := ⟨"A", "a@x.com", "1", "D", none, none⟩

/-- Sheets configured, the worksheet variable set to the empty string, and the
spreadsheet containing a worksheet whose title is the empty string. -/
def envSheetsEmptyWs : Env :=
  ⟨some "cred", some "Book", some "", none, none, none, none, none, none⟩

def swEmptyTitle : SheetsWorld := ⟨true, [""], none, true⟩

/-- Messaging fully configured, sheets unconfigured. -/
def envTwilioFull : Env :=
  ⟨none, none, none, some "AC1", some "tok", some "from1", some "to1", none, none⟩

def twSid : TwilioWorld := ⟨some "SM1"⟩

/-! ### Claims -/

/-- C1: when the persistence insert raises with message `e`, the POST
`/appointments` handler returns HTTP 500 with detail `"Database error: " ++ e`,
and neither channel adapter is invoked: zero adapter calls, no row appended,
no message sent. -/
theorem C1_persistence_failure_isolation (env : Env) (w : World) (a : Appointment) (e : String) :
    create_appointment env w a (Except.error e) =
      (Except.error (500, "Database error: " ++ e), ⟨0, 0, [], []⟩) := rfl

/-- C2 counterexample: with the sheets channel configured, the worksheet
variable set to `""` and the spreadsheet containing a worksheet titled `""`,
the adapter returns a success token (`some ""`, i.e. `ws.title`), yet the
response flag `google_sheets` is `false` — so the flag is not `true` iff the
adapter returned a success token. -/
theorem C2_flag_iff_token_cex :
    (append_to_google_sheets envSheetsEmptyWs swEmptyTitle apptA).1 = some "" ∧
    (create_appointment envSheetsEmptyWs ⟨swEmptyTitle, ⟨none⟩⟩ apptA (Except.ok "abc")).1 =
      Except.ok { ok := true, id := "abc", google_sheets := false, whatsapp := false } :=
  ⟨rfl, rfl⟩

/-- C2 (amended): on a successful insert returning identifier `id`, the handler
returns exactly `{ok := true, id := id, google_sheets, whatsapp}` where each
flag is the Python truthiness of the corresponding adapter's token — `true` iff
the adapter returned a non-`None`, non-empty token; the identifier is the one
the insert returned and is non-empty whenever the gateway returned a non-empty
identifier (which the spec models it as always doing). -/
theorem C2_success_response (env : Env) (w : World) (a : Appointment) (id : String)
    (hid : id ≠ "") :
    (create_appointment env w a (Except.ok id)).1 =
      Except.ok { ok := true, id := id,
                  google_sheets := pyTruthy (append_to_google_sheets env w.sheets a).1,
                  whatsapp := pyTruthy (send_whatsapp_notification env w.twilio a).1 } ∧
    id ≠ "" ∧
    (∀ o : Option String, pyTruthy o = true ↔ ∃ s, o = some s ∧ s ≠ "") :=
  ⟨rfl, hid, pyTruthy_iff⟩

/-- C2 witness: the amended theorem applied to the spec's concrete scenario —
no channel configured, insert returns `"abc"`. -/
theorem C2_success_response_witness :
    ("abc" : String) ≠ "" ∧
    (create_appointment envNone wTrivial apptA (Except.ok "abc")).1 =
      Except.ok { ok := true, id := "abc", google_sheets := false, whatsapp := false } := by
  have h := C2_success_response envNone wTrivial apptA "abc" (by decide)
  exact ⟨by decide, h.1⟩

/-- C3 counterexample: with both channels unconfigured (every variable unset)
and a successful insert, the handler still invokes both adapter functions —
one call each — so the configuration gate is not applied in the Orchestrator
before the adapter invocation. -/
theorem C3_orchestrator_gate_cex :
    sheetsConfigured envNone = false ∧
    twilioConfigured envNone = false ∧
    (create_appointment envNone wTrivial apptA (Except.ok "abc")).2.sheets_adapter_calls = 1 ∧
    (create_appointment envNone wTrivial apptA (Except.ok "abc")).2.whatsapp_adapter_calls = 1 :=
  ⟨rfl, rfl, rfl, rfl⟩

/-- C3 (amended): the configuration gate lives inside each adapter, not in the
Orchestrator: the handler invokes both adapter functions exactly once on every
successful persist, but when a channel is unconfigured its adapter returns
`None` without any delivery side effect, and that channel's response flag is
`false`. -/
theorem C3_adapter_side_gate (env : Env) (w : World) (a : Appointment) (id : String) :
    (create_appointment env w a (Except.ok id)).2.sheets_adapter_calls = 1 ∧
    (create_appointment env w a (Except.ok id)).2.whatsapp_adapter_calls = 1 ∧
    (create_appointment env w a (Except.ok id)).1 = Except.ok (response_of env w a id) ∧
    (sheetsConfigured env = false →
      append_to_google_sheets env w.sheets a = (none, []) ∧
      (create_appointment env w a (Except.ok id)).2.sheets_rows = [] ∧
      (response_of env w a id).google_sheets = false) ∧
    (twilioConfigured env = false →
      send_whatsapp_notification env w.twilio a = (none, []) ∧
      (create_appointment env w a (Except.ok id)).2.whatsapp_messages = [] ∧
      (response_of env w a id).whatsapp = false) := by
  refine ⟨rfl, rfl, rfl, fun hs => ?_, fun ht => ?_⟩
  · have h := sheets_gate_closed env w.sheets a hs
    refine ⟨h, ?_, ?_⟩
    · show (append_to_google_sheets env w.sheets a).2 = []
      rw [h]
    · show pyTruthy (append_to_google_sheets env w.sheets a).1 = false
      rw [h]
      rfl
  · have h := twilio_gate_closed env w.twilio a ht
    refine ⟨h, ?_, ?_⟩
    · show (send_whatsapp_notification env w.twilio a).2 = []
      rw [h]
    · show pyTruthy (send_whatsapp_notification env w.twilio a).1 = false
      rw [h]
      rfl

/-- C3 witness: the amended theorem at the all-unset environment. -/
theorem C3_adapter_side_gate_witness :
    append_to_google_sheets envNone wTrivial.sheets apptA = (none, []) ∧
    send_whatsapp_notification envNone wTrivial.twilio apptA = (none, []) ∧
    (response_of envNone wTrivial apptA "abc").google_sheets = false ∧
    (response_of envNone wTrivial apptA "abc").whatsapp = false := by
  have h := C3_adapter_side_gate envNone wTrivial apptA "abc"
  exact ⟨(h.2.2.2.1 rfl).1, (h.2.2.2.2 rfl).1, (h.2.2.2.1 rfl).2.2, (h.2.2.2.2 rfl).2.2⟩

/-- C4: a channel is configured iff every one of its required values is present
and non-empty — four values for messaging, credential blob and spreadsheet
identifier for sheets, the worksheet name defaulting to `"Sheet1"` when unset —
and when any required value is absent or empty, no delivery is attempted on
that channel (no row appended, no message sent) and its response flag is
`false`. -/
theorem C4_configuration_gate (env : Env) (w : World) (a : Appointment) (id : String) :
    (sheetsConfigured env = true ↔
      pyTruthy env.google_service_account_json = true ∧
        pyTruthy env.google_sheets_spreadsheet = true) ∧
    (twilioConfigured env = true ↔
      pyTruthy env.twilio_account_sid = true ∧ pyTruthy env.twilio_auth_token = true ∧
        pyTruthy env.twilio_whatsapp_from = true ∧ pyTruthy env.whatsapp_to = true) ∧
    (env.google_sheets_worksheet = none → worksheet_name env = "Sheet1") ∧
    (create_appointment env w a (Except.ok id)).1 = Except.ok (response_of env w a id) ∧
    (sheetsConfigured env = false →
      append_to_google_sheets env w.sheets a = (none, []) ∧
      (response_of env w a id).google_sheets = false) ∧
    (twilioConfigured env = false →
      send_whatsapp_notification env w.twilio a = (none, []) ∧
      (response_of env w a id).whatsapp = false) := by
  refine ⟨?_, ?_, fun hw => ?_, rfl, fun hs => ?_, fun ht => ?_⟩
  · simp [sheetsConfigured]
  · simp [twilioConfigured, and_assoc]
  · simp [worksheet_name, hw]
  · have h := sheets_gate_closed env w.sheets a hs
    refine ⟨h, ?_⟩
    show pyTruthy (append_to_google_sheets env w.sheets a).1 = false
    rw [h]
    rfl
  · have h := twilio_gate_closed env w.twilio a ht
    refine ⟨h, ?_⟩
    show pyTruthy (send_whatsapp_notification env w.twilio a).1 = false
    rw [h]
    rfl

/-- C4 witness: a partially configured messaging channel (auth token set to the
empty string, the other three values set) counts as unconfigured: no message is
sent and the flag is `false`; and the unset worksheet variable defaults to
`"Sheet1"`. -/
theorem C4_configuration_gate_witness :
    send_whatsapp_notification
        ⟨none, none, none, some "AC1", some "", some "from1", some "to1", none, none⟩
        twSid apptA = (none, []) ∧
    (response_of ⟨none, none, none, some "AC1", some "", some "from1", some "to1", none, none⟩
        ⟨wTrivial.sheets, twSid⟩ apptA "abc").whatsapp = false ∧
    worksheet_name envNone = "Sheet1" := by
  have h := C4_configuration_gate
    ⟨none, none, none, some "AC1", some "", some "from1", some "to1", none, none⟩
    ⟨wTrivial.sheets, twSid⟩ apptA "abc"
  exact ⟨(h.2.2.2.2.2 rfl).1, (h.2.2.2.2.2 rfl).2, h.2.2.1 rfl⟩

/-- C5: the adapters are total at their boundary: every modelled internal
failure — credential/auth/open pipeline failure, worksheet resolution raising,
`append_row` raising, `messages.create` raising — is caught inside the adapter
and surfaced as a `None` token, and the handler's aggregation after a
successful persist always produces a success response, never an error. -/
theorem C5_adapter_boundary_total (env : Env) (w : World) (a : Appointment) (id : String) :
    (∃ r, (create_appointment env w a (Except.ok id)).1 = Except.ok r) ∧
    (w.sheets.pipelineOk = false → (append_to_google_sheets env w.sheets a).1 = none) ∧
    (resolveWorksheet w.sheets (worksheet_name env) = none →
      (append_to_google_sheets env w.sheets a).1 = none) ∧
    (w.sheets.appendOk = false → (append_to_google_sheets env w.sheets a).1 = none) ∧
    (w.twilio.sendSid = none → (send_whatsapp_notification env w.twilio a).1 = none) := by
  refine ⟨⟨response_of env w a id, rfl⟩, fun hp => ?_, fun hr => ?_, fun ha => ?_, fun hs => ?_⟩
  · unfold append_to_google_sheets
    split
    · rfl
    · simp [hp]
  · unfold append_to_google_sheets
    split
    · rfl
    · split
      · rfl
      · simp [hr]
  · unfold append_to_google_sheets
    split
    · rfl
    · split
      · rfl
      · split
        · rfl
        · simp [ha]
  · unfold send_whatsapp_notification
    split
    · rfl
    · simp [hs]

/-- C5 witness: a world in which every external call fails — the credentials
pipeline, worksheet resolution, `append_row` and `messages.create` all raise —
still yields `None` tokens and a success response for the spec's concrete
scenario. -/
theorem C5_adapter_boundary_total_witness :
    (append_to_google_sheets envTwilioFull ⟨false, [], none, false⟩ apptA).1 = none ∧
    (send_whatsapp_notification envTwilioFull ⟨none⟩ apptA).1 = none ∧
    (create_appointment envTwilioFull ⟨⟨false, [], none, false⟩, ⟨none⟩⟩ apptA
        (Except.ok "abc")).1 =
      Except.ok { ok := true, id := "abc", google_sheets := false, whatsapp := false } := by
  have h := C5_adapter_boundary_total envTwilioFull ⟨⟨false, [], none, false⟩, ⟨none⟩⟩ apptA "abc"
  exact ⟨h.2.1 rfl, h.2.2.2.2 rfl, rfl⟩

/-- C6: channel independence — two runs of the handler on the same appointment
and identifier that agree on one channel's configuration and service behaviour
produce the same response flag for that channel, however the other channel's
configuration and service behaviour differ. -/
theorem C6_channel_independence (e1 e2 : Env) (w1 w2 : World) (a : Appointment) (id : String) :
    (create_appointment e1 w1 a (Except.ok id)).1 = Except.ok (response_of e1 w1 a id) ∧
    (create_appointment e2 w2 a (Except.ok id)).1 = Except.ok (response_of e2 w2 a id) ∧
    (e1.twilio_account_sid = e2.twilio_account_sid →
      e1.twilio_auth_token = e2.twilio_auth_token →
      e1.twilio_whatsapp_from = e2.twilio_whatsapp_from →
      e1.whatsapp_to = e2.whatsapp_to →
      w1.twilio = w2.twilio →
      (response_of e1 w1 a id).whatsapp = (response_of e2 w2 a id).whatsapp) ∧
    (e1.google_service_account_json = e2.google_service_account_json →
      e1.google_sheets_spreadsheet = e2.google_sheets_spreadsheet →
      e1.google_sheets_worksheet = e2.google_sheets_worksheet →
      w1.sheets = w2.sheets →
      (response_of e1 w1 a id).google_sheets = (response_of e2 w2 a id).google_sheets) := by
  refine ⟨rfl, rfl, fun h1 h2 h3 h4 h5 => ?_, fun g1 g2 g3 g4 => ?_⟩
  · show pyTruthy (send_whatsapp_notification e1 w1.twilio a).1 =
      pyTruthy (send_whatsapp_notification e2 w2.twilio a).1
    unfold send_whatsapp_notification
    rw [h1, h2, h3, h4, h5]
  · show pyTruthy (append_to_google_sheets e1 w1.sheets a).1 =
      pyTruthy (append_to_google_sheets e2 w2.sheets a).1
    unfold append_to_google_sheets worksheet_name
    rw [g1, g2, g3, g4]

/-- C6 witness: two runs agreeing on the (unconfigured) messaging channel but
differing completely in the spreadsheet channel — one unconfigured, one
configured with a succeeding delivery — report the same `whatsapp` flag. -/
theorem C6_channel_independence_witness :
    (response_of envNone wTrivial apptA "abc").whatsapp =
      (response_of envSheetsEmptyWs ⟨swEmptyTitle, wTrivial.twilio⟩ apptA "abc").whatsapp := by
  have h := C6_channel_independence envNone envSheetsEmptyWs wTrivial
    ⟨swEmptyTitle, wTrivial.twilio⟩ apptA "abc"
  exact h.2.2.1 rfl rfl rfl rfl rfl

/-- C7: when the sheets channel is configured and the credentials pipeline
succeeds, the adapter appends exactly one row in the fixed column order
name, email, phone, department, date-or-empty, notes-or-empty, returns the
resolved worksheet's title as the success token, and falls back to the
spreadsheet's first worksheet when the named worksheet does not exist. -/
theorem C7_sheets_append_row (env : Env) (w : SheetsWorld) (a : Appointment) (t : String)
    (hc : sheetsConfigured env = true) (hp : w.pipelineOk = true) (ha : w.appendOk = true)
    (hr : resolveWorksheet w (worksheet_name env) = some t) :
    append_to_google_sheets env w a =
      (some t, [[a.name, a.email, a.phone, a.department, pyOr a.date "", pyOr a.notes ""]]) ∧
    (worksheet_name env ∉ w.existingWorksheets → w.sheet1 = some t) ∧
    (worksheet_name env ∈ w.existingWorksheets → t = worksheet_name env) := by
  have hj : pyTruthy env.google_service_account_json = true := by
    have := hc
    unfold sheetsConfigured at this
    exact (Bool.and_eq_true _ _ |>.mp this).1
  have hs : pyTruthy env.google_sheets_spreadsheet = true := by
    have := hc
    unfold sheetsConfigured at this
    exact (Bool.and_eq_true _ _ |>.mp this).2
  refine ⟨?_, fun hn => ?_, fun hm => ?_⟩
  · unfold append_to_google_sheets
    rw [hj, hs, hp, hr, ha]
    simp
  · unfold resolveWorksheet at hr
    rw [if_neg hn] at hr
    exact hr
  · unfold resolveWorksheet at hr
    rw [if_pos hm] at hr
    exact (Option.some.injEq _ _ ▸ hr).symm

/-- C7 witness: sheets configured with worksheet name `"W"`, the spreadsheet
lacking a worksheet titled `"W"` and its first worksheet titled `"Fallback"`:
the adapter appends the one fixed-order row (a set date, absent notes) and
returns `"Fallback"`. -/
theorem C7_sheets_append_row_witness :
    append_to_google_sheets ⟨some "cred", some "Book", some "W", none, none, none, none, none, none⟩
        ⟨true, [], some "Fallback", true⟩ ⟨"A", "a@x.com", "1", "D", some "2025-01-01", none⟩ =
      (some "Fallback", [["A", "a@x.com", "1", "D", "2025-01-01", ""]]) ∧
    (⟨true, [], some "Fallback", true⟩ : SheetsWorld).sheet1 = some "Fallback" := by
  have h := C7_sheets_append_row
    ⟨some "cred", some "Book", some "W", none, none, none, none, none, none⟩
    ⟨true, [], some "Fallback", true⟩ ⟨"A", "a@x.com", "1", "D", some "2025-01-01", none⟩
    "Fallback" rfl rfl rfl rfl
  refine ⟨?_, h.2.1 (by simp)⟩
  have h1 := h.1
  simpa [pyOr] using h1

/-- C8 counterexample: for the spec's concrete request (date and notes absent)
with the messaging channel configured and the send succeeding, the message
actually sent renders the absent optional fields as the placeholder `"-"`
(`appointment.date or '-'`), not as the empty string — so not every downstream
consumer treats an absent optional field as the empty string. -/
theorem C8_empty_string_cex :
    apptA.date = none ∧
    (send_whatsapp_notification envTwilioFull twSid apptA).2 =
      ["New Appointment Request\nName: A\nEmail: a@x.com\nPhone: 1\nDepartment: D\nDate: -\nNotes: -"] ∧
    whatsapp_body apptA ≠
      "New Appointment Request\nName: A\nEmail: a@x.com\nPhone: 1\nDepartment: D\nDate: \nNotes: " := by
  exact ⟨rfl, rfl, by decide⟩

/-- C8 (amended): per absent optional field — whenever `date` is absent, and
independently whenever `notes` is absent — no downstream consumer leaks a
null/undefined sentinel into formatted output: the spreadsheet adapter and the
(spec-modelled) persistence document render that absent field as the empty
string (the other field rendered as usual), while the messaging adapter
renders it as the placeholder `"-"` inside the fixed message body. -/
theorem C8_optional_fields (env : Env) (w : World) (a : Appointment) :
    (a.date = none →
      (∀ row ∈ (append_to_google_sheets env w.sheets a).2,
        row = [a.name, a.email, a.phone, a.department, "", pyOr a.notes ""]) ∧
      stored_document a =
        [("name", a.name), ("email", a.email), ("phone", a.phone),
         ("department", a.department), ("date", ""), ("notes", pyOr a.notes "")] ∧
      pyOr a.date "-" = "-") ∧
    (a.notes = none →
      (∀ row ∈ (append_to_google_sheets env w.sheets a).2,
        row = [a.name, a.email, a.phone, a.department, pyOr a.date "", ""]) ∧
      stored_document a =
        [("name", a.name), ("email", a.email), ("phone", a.phone),
         ("department", a.department), ("date", pyOr a.date ""), ("notes", "")] ∧
      pyOr a.notes "-" = "-") ∧
    (∀ m ∈ (send_whatsapp_notification env w.twilio a).2, m = whatsapp_body a) := by
  refine ⟨fun hd => ⟨?_, ?_, by rw [hd]; rfl⟩, fun hn => ⟨?_, ?_, by rw [hn]; rfl⟩, ?_⟩
  · rcases sheets_result_cases env w.sheets a with h | ⟨t, h⟩
    · rw [h]
      intro row hrow
      cases hrow
    · rw [h]
      intro row hrow
      rcases List.mem_singleton.mp hrow with rfl
      rw [hd]
      rfl
  · unfold stored_document
    rw [hd]
    rfl
  · rcases sheets_result_cases env w.sheets a with h | ⟨t, h⟩
    · rw [h]
      intro row hrow
      cases hrow
    · rw [h]
      intro row hrow
      rcases List.mem_singleton.mp hrow with rfl
      rw [hn]
      rfl
  · unfold stored_document
    rw [hn]
    rfl
  · rcases whatsapp_result_cases env w.twilio a with h | ⟨sid, h⟩
    · rw [h]
      intro m hm
      cases hm
    · rw [h]
      intro m hm
      exact List.mem_singleton.mp hm

/-- C8 witness: the amended theorem at a mixed-absence request — date absent,
notes present (`"vip"`) — with the sheets channel configured and succeeding:
the one appended row carries the empty string for the absent date next to the
present notes value, the stored document does the same, and the messaging
placeholder for the absent date is `"-"`. -/
theorem C8_optional_fields_witness :
    (∀ row ∈ (append_to_google_sheets envSheetsEmptyWs swEmptyTitle
        ⟨"A", "a@x.com", "1", "D", none, some "vip"⟩).2,
      row = ["A", "a@x.com", "1", "D", "", "vip"]) ∧
    stored_document ⟨"A", "a@x.com", "1", "D", none, some "vip"⟩ =
      [("name", "A"), ("email", "a@x.com"), ("phone", "1"),
       ("department", "D"), ("date", ""), ("notes", "vip")] ∧
    pyOr (none : Option String) "-" = "-" := by
  have h := C8_optional_fields envSheetsEmptyWs ⟨swEmptyTitle, twSid⟩
    ⟨"A", "a@x.com", "1", "D", none, some "vip"⟩
  have h1 := h.1 rfl
  exact ⟨h1.1, h1.2.1, h1.2.2⟩

/-- C9: the GET `/test` diagnostics handler is a total pure function of
the module-import outcome and the environment: it always reports a running backend,
renders every failure path (module missing, other import failure, uninitialised
handle, failing collection listing) as a descriptive status string with error
text truncated to at most 50 characters, and its `database_url` /
`database_name` fields only ever report presence — one of two fixed strings,
never the configured value. -/
theorem C9_diagnostics_total (imp : DbImport) (env : Env) (msg : String) (db : DbHandle)
    (e : String) (hdb : db.collections = Except.error e) :
    (test_database imp env).backend = "✅ Running" ∧
    ((test_database imp env).database_url = "✅ Set" ∨
      (test_database imp env).database_url = "❌ Not Set") ∧
    ((test_database imp env).database_name = "✅ Set" ∨
      (test_database imp env).database_name = "❌ Not Set") ∧
    (test_database DbImport.importError env).database =
      "❌ Database module not found (run enable-database first)" ∧
    (test_database (DbImport.otherError msg) env).database = "❌ Error: " ++ msg.take 50 ∧
    (msg.take 50).length ≤ 50 ∧
    (test_database (DbImport.ok (some db)) env).database =
      "⚠️  Connected but Error: " ++ e.take 50 ∧
    (e.take 50).length ≤ 50 ∧
    (test_database (DbImport.ok none) env).database = "⚠️  Available but not initialized" := by
  refine ⟨?_, ?_, ?_, rfl, rfl, string_take_length_le msg 50, ?_,
    string_take_length_le e 50, rfl⟩
  · cases imp with
    | importError => rfl
    | otherError m => rfl
    | ok o =>
      cases o with
      | none => rfl
      | some db2 =>
        cases hc : db2.collections with
        | ok cols => simp [test_database, hc]
        | error e2 => simp [test_database, hc]
  · cases hu : pyTruthy env.database_url
    · right
      show (if pyTruthy env.database_url then "✅ Set" else "❌ Not Set") = "❌ Not Set"
      rw [hu]
      rfl
    · left
      show (if pyTruthy env.database_url then "✅ Set" else "❌ Not Set") = "✅ Set"
      rw [hu]
      rfl
  · cases hn : pyTruthy env.database_name
    · right
      show (if pyTruthy env.database_name then "✅ Set" else "❌ Not Set") = "❌ Not Set"
      rw [hn]
      rfl
    · left
      show (if pyTruthy env.database_name then "✅ Set" else "❌ Not Set") = "✅ Set"
      rw [hn]
      rfl
  · simp [test_database, hdb]

set_option maxRecDepth 8000 in
/-- C9 witness: the theorem at a concrete failing handle (collection listing
raising a 60-character message) in an environment with both variables unset:
the status string is the truncated error text and the presence fields report
absence. -/
theorem C9_diagnostics_total_witness :
    (test_database (DbImport.ok (some ⟨some "mydb",
        Except.error "0123456789012345678901234567890123456789012345678901234567890"⟩)) envNone).database =
      "⚠️  Connected but Error: " ++ "01234567890123456789012345678901234567890123456789" ∧
    (test_database DbImport.importError envNone).database_url = "❌ Not Set" := by
  have h := C9_diagnostics_total DbImport.importError envNone "m"
    ⟨some "mydb", Except.error "0123456789012345678901234567890123456789012345678901234567890"⟩
    "0123456789012345678901234567890123456789012345678901234567890" rfl
  refine ⟨?_, ?_⟩
  · rw [h.2.2.2.2.2.2.1]
    rfl
  · rcases h.2.1 with hu | hu
    · exact absurd hu (by decide)
    · exact hu

/-- C10: the response flags are computed as the Python truthiness of the
adapter tokens (`bool(sheet_ws)`, `bool(whatsapp_sid)`): a flag is `true` iff
the adapter returned a non-`None`, non-empty token, so an empty-string success
token is reported as `false`, indistinguishable from a failed or unconfigured
channel. -/
theorem C10_flags_truthiness (env : Env) (w : World) (a : Appointment) (id : String) :
    (create_appointment env w a (Except.ok id)).1 = Except.ok (response_of env w a id) ∧
    (response_of env w a id).google_sheets =
      pyTruthy (append_to_google_sheets env w.sheets a).1 ∧
    (response_of env w a id).whatsapp =
      pyTruthy (send_whatsapp_notification env w.twilio a).1 ∧
    (∀ o : Option String, pyTruthy o = true ↔ ∃ s, o = some s ∧ s ≠ "") ∧
    pyTruthy (some "") = false ∧
    pyTruthy (some "") = pyTruthy none :=
  ⟨rfl, rfl, rfl, pyTruthy_iff, rfl, rfl⟩
